import Mathlib

/-
Verification of the tastyworks order-lifecycle client.

Shallow embedding of `src/tastyworks/models/order.py` and
`src/tastyworks/tastyworks_api/session.py`.  The HTTP layer
(`tastyworks.tastyworks_api.tw_api`) is not part of the sources; its calls are
modelled by an explicit environment (`ApiEnv`) holding the already-extracted
`content.data` payloads, and each remote invocation is recorded in a call
trace so that "no network call is made" is a provable statement.

Modelling conventions:
* Python `None` becomes `Option.none`; Python truthiness is modelled per
  type (`optIntTruthy`, `optStrTruthy`, ...).
* `decimal.Decimal` values are modelled by `Rat`; a decimal wire string is
  represented by the rational it denotes (`Decimal(s)` is then the
  identity), and the truthiness guard `if order.get('price')` on the wire
  string corresponds to presence of the rational.
* `datetime` values are kept abstract: `DateTime.ofIso` tags the ISO string
  accepted by `datetime.fromisoformat`, `DateTime.ofMillis` tags the
  millisecond timestamp passed to `datetime.fromtimestamp(ms/1000)`.
* A Python function that can raise is modelled with `Option`/an `Option`
  result component: `none` is an uncaught exception.
-/

namespace Tasty

/-- Wire enum `OrderType` (order.py lines 16-21). -/
inductive OrderType where
  | MARKET
  | LIMIT
  | STOP_MARKET
  | STOP_LIMIT
  | NOTIONAL
deriving DecidableEq, Repr

/-- String wire value of an `OrderType` member. -/
def OrderType.wire : OrderType → String
  | .MARKET => "Market"
  | .LIMIT => "Limit"
  | .STOP_MARKET => "Stop"
  | .STOP_LIMIT => "Stop Limit"
  | .NOTIONAL => "Notional Market"

/-- Python `OrderType(s)`: `none` models the `ValueError` on an unknown value. -/
def OrderType.ofWire : String → Option OrderType
  | "Market" => some .MARKET
  | "Limit" => some .LIMIT
  | "Stop" => some .STOP_MARKET
  | "Stop Limit" => some .STOP_LIMIT
  | "Notional Market" => some .NOTIONAL
  | _ => none

/-- Wire enum `OrderPriceEffect` (order.py lines 24-26). -/
inductive OrderPriceEffect where
  | CREDIT
  | DEBIT
deriving DecidableEq, Repr

def OrderPriceEffect.wire : OrderPriceEffect → String
  | .CREDIT => "Credit"
  | .DEBIT => "Debit"

def OrderPriceEffect.ofWire : String → Option OrderPriceEffect
  | "Credit" => some .CREDIT
  | "Debit" => some .DEBIT
  | _ => none

/-- Wire enum `OrderStatus` (order.py lines 34-43). -/
inductive OrderStatus where
  | ROUTED
  | RECEIVED
  | CANCELLED
  | CANCEL_REQ
  | FILLED
  | EXPIRED
  | LIVE
  | REJECTED
  | CONTINGENT
deriving DecidableEq, Repr

def OrderStatus.wire : OrderStatus → String
  | .ROUTED => "Routed"
  | .RECEIVED => "Received"
  | .CANCELLED => "Cancelled"
  | .CANCEL_REQ => "Cancel Requested"
  | .FILLED => "Filled"
  | .EXPIRED => "Expired"
  | .LIVE => "Live"
  | .REJECTED => "Rejected"
  | .CONTINGENT => "Contingent"

def OrderStatus.ofWire : String → Option OrderStatus
  | "Routed" => some .ROUTED
  | "Received" => some .RECEIVED
  | "Cancelled" => some .CANCELLED
  | "Cancel Requested" => some .CANCEL_REQ
  | "Filled" => some .FILLED
  | "Expired" => some .EXPIRED
  | "Live" => some .LIVE
  | "Rejected" => some .REJECTED
  | "Contingent" => some .CONTINGENT
  | _ => none

/-- Wire enum `TimeInForce` (order.py lines 49-53). -/
inductive TimeInForce where
  | DAY
  | GTC
  | GTD
  | EXT
deriving DecidableEq, Repr

def TimeInForce.wire : TimeInForce → String
  | .DAY => "Day"
  | .GTC => "GTC"
  | .GTD => "GTD"
  | .EXT => "Ext"

def TimeInForce.ofWire : String → Option TimeInForce
  | "Day" => some .DAY
  | "GTC" => some .GTC
  | "GTD" => some .GTD
  | "Ext" => some .EXT
  | _ => none

/-- Wire enum `InstrumentType` (order.py lines 56-61). -/
inductive InstrumentType where
  | EQUITY
  | FUTURE
  | EQUITY_OPTION
  | FUTURE_OPTION
  | CRYPTO
deriving DecidableEq, Repr

def InstrumentType.wire : InstrumentType → String
  | .EQUITY => "Equity"
  | .FUTURE => "Future"
  | .EQUITY_OPTION => "Equity Option"
  | .FUTURE_OPTION => "Future Option"
  | .CRYPTO => "Cryptocurrency"

def InstrumentType.ofWire : String → Option InstrumentType
  | "Equity" => some .EQUITY
  | "Future" => some .FUTURE
  | "Equity Option" => some .EQUITY_OPTION
  | "Future Option" => some .FUTURE_OPTION
  | "Cryptocurrency" => some .CRYPTO
  | _ => none

/-- Wire enum `OrderAction` (order.py lines 64-68). -/
inductive OrderAction where
  | BTO
  | STO
  | BTC
  | STC
deriving DecidableEq, Repr

def OrderAction.wire : OrderAction → String
  | .BTO => "Buy to Open"
  | .STO => "Sell to Open"
  | .BTC => "Buy to Close"
  | .STC => "Sell to Close"

def OrderAction.ofWire : String → Option OrderAction
  | "Buy to Open" => some .BTO
  | "Sell to Open" => some .STO
  | "Buy to Close" => some .BTC
  | "Sell to Close" => some .STC
  | _ => none

/-- Abstract `datetime` value: an ISO string accepted by
`datetime.fromisoformat`, or a millisecond timestamp fed to
`datetime.fromtimestamp(ms/1000)`.  Claims never inspect the calendar
semantics, only construction and equality. -/
inductive DateTime where
  | ofIso (s : String)
  | ofMillis (ms : Int)
deriving DecidableEq, Repr

/-- Python truthiness of an optional int (`None` and `0` are falsy). -/
def optIntTruthy : Option Int → Bool
  | some n => n != 0
  | none => false

/-- Python truthiness of an optional string (`None` and the empty string are falsy). -/
def optStrTruthy : Option String → Bool
  | some s => s != ""
  | none => false

/-- Python truthiness of an optional Decimal (`None` and `Decimal(0)` are falsy). -/
def optRatTruthy : Option Rat → Bool
  | some q => q != 0
  | none => false

/-- Python truthiness of an optional bool (`None` and `False` are falsy). -/
def optBoolTruthy : Option Bool → Bool
  | some b => b
  | none => false

/-- `OrderWarning` dataclass (messages.py lines 19-26).  `OrderWarning(**w)`
on a wire record with exactly these keys is the identity, so the wire and
parsed shapes share this type. -/
structure OrderWarning where
  code : String
  message : String
deriving DecidableEq, Repr

/-- `OrderError` dataclass (messages.py lines 8-16). -/
structure OrderError where
  code : String
  message : String
  error : List String
deriving DecidableEq, Repr

/-- Uninterpreted `buying-power-effect` JSON dict (only stored and compared). -/
structure BpDict where
  entries : List (String × String)
deriving DecidableEq, Repr

/-- Uninterpreted `fee-calculation` JSON dict (only stored and compared by the
claims under verification; `total_fees` is not a claimed operation). -/
structure FeeDict where
  entries : List (String × String)
deriving DecidableEq, Repr

/-- `Leg` dataclass (order.py lines 71-81).  Every field may be `None` in
Python, hence `Option`; `fills` is an uninterpreted list payload. -/
structure Leg where
  instrument_type : Option InstrumentType
  symbol : Option String
  action : Option OrderAction
  quantity : Option Rat
  fills : Option (List String)
  remaining_quantity : Option Int
deriving DecidableEq, Repr

/-- `Order` dataclass fields (order.py lines 122-156).  `legs` and `source`
keep their non-optional Python defaults (`[]`, `'WBT'`). -/
structure Order where
  account_number : Option String
  type : Option OrderType
  time_in_force : Option TimeInForce
  legs : List Leg
  source : String
  id : Option Int
  price : Option Rat
  price_effect : Option OrderPriceEffect
  stop_trigger : Option Rat
  status : Option OrderStatus
  contingent_status : Option String
  size : Option Rat
  gtc_date : Option DateTime
  underlying_symbol : Option String
  underlying_type : Option InstrumentType
  cancellable : Option Bool
  editable : Option Bool
  edited : Option Bool
  cancelled_at : Option DateTime
  received_at : Option DateTime
  updated_at : Option DateTime
  terminal_at : Option DateTime
  bp : Option BpDict
  fees : Option FeeDict
  warnings : Option (List OrderWarning)
  errors : Option (List OrderError)
  is_dry_run : Option Bool
deriving DecidableEq, Repr

/-- One step of the field-merge loop of `Order.update_fields`
(order.py lines 374-381): the Python body keeps the newer value `v` iff
`v != getattr(self, k) and v is not None`, otherwise the current value. -/
def mergeField {α : Type} [DecidableEq α] (cur new : Option α) : Option α :=
  if new ≠ cur ∧ new ≠ none then new else cur

/-- The same loop body on a field that is never `None` in the model
(`legs`, `source`): the `v is not None` conjunct is always true. -/
def mergeRaw {α : Type} [DecidableEq α] (cur new : α) : α :=
  if new ≠ cur then new else cur

/-- `Order.update_fields` (order.py lines 374-381): `vars(newer_order)`
iterates every dataclass field; the reflection loop is embedded as an
explicit per-field merge. -/
def Order.update_fields (self newer : Order) : Order where
  account_number := mergeField self.account_number newer.account_number
  type := mergeField self.type newer.type
  time_in_force := mergeField self.time_in_force newer.time_in_force
  legs := mergeRaw self.legs newer.legs
  source := mergeRaw self.source newer.source
  id := mergeField self.id newer.id
  price := mergeField self.price newer.price
  price_effect := mergeField self.price_effect newer.price_effect
  stop_trigger := mergeField self.stop_trigger newer.stop_trigger
  status := mergeField self.status newer.status
  contingent_status := mergeField self.contingent_status newer.contingent_status
  size := mergeField self.size newer.size
  gtc_date := mergeField self.gtc_date newer.gtc_date
  underlying_symbol := mergeField self.underlying_symbol newer.underlying_symbol
  underlying_type := mergeField self.underlying_type newer.underlying_type
  cancellable := mergeField self.cancellable newer.cancellable
  editable := mergeField self.editable newer.editable
  edited := mergeField self.edited newer.edited
  cancelled_at := mergeField self.cancelled_at newer.cancelled_at
  received_at := mergeField self.received_at newer.received_at
  updated_at := mergeField self.updated_at newer.updated_at
  terminal_at := mergeField self.terminal_at newer.terminal_at
  bp := mergeField self.bp newer.bp
  fees := mergeField self.fees newer.fees
  warnings := mergeField self.warnings newer.warnings
  errors := mergeField self.errors newer.errors
  is_dry_run := mergeField self.is_dry_run newer.is_dry_run

/-- `Leg.is_executable` (order.py lines 107-119):
`all([instrument_type, symbol != '', action, quantity])` under Python
truthiness (an enum member is truthy; `Decimal(0)` is falsy; when `symbol`
is `None`, the comparison `None != ''` is true). -/
def Leg.is_executable (l : Leg) : Bool :=
  l.instrument_type.isSome && (l.symbol != some "") && l.action.isSome &&
    optRatTruthy l.quantity

/-- `Order.is_executable` (order.py lines 235-258).  Note the source appends
the two-element *list* `[self.price, self.price_effect]` as one element of
`required_data`; a non-empty list is truthy in Python whatever it contains,
so that element contributes `true` regardless of `price`/`price_effect`. -/
def Order.is_executable (o : Order) : Bool :=
  let required : List Bool :=
    [o.type.isSome, o.source != "", o.time_in_force.isSome, o.legs.length != 0]
  let required : List Bool :=
    if o.type ≠ some OrderType.MARKET then required ++ [true] else required
  let required : List Bool :=
    if o.type = some OrderType.STOP_LIMIT ∨ o.type = some OrderType.STOP_MARKET
    then required ++ [optRatTruthy o.stop_trigger] else required
  let required : List Bool :=
    if o.time_in_force = some TimeInForce.GTD
    then required ++ [o.gtc_date.isSome] else required
  required.all (fun b => b)

/-- Serialized leg (Leg.to_order_json, order.py lines 97-105). -/
structure LegJson where
  action : String
  instrument_type : String
  symbol : Option String
  quantity : String
deriving DecidableEq, Repr

/-- `str(self.quantity)` on an optional Decimal (`str(None)` is the string
"None", no exception). -/
def quantStr : Option Rat → String
  | some q => toString q
  | none => "None"

/-- `Leg.to_order_json` (order.py lines 97-105): `self.action.value` and
`self.instrument_type.value` raise `AttributeError` when the field is
`None`, modelled by `none`. -/
def Leg.to_order_json (l : Leg) : Option LegJson :=
  match l.action, l.instrument_type with
  | some a, some it =>
      some { action := a.wire, instrument_type := it.wire,
             symbol := l.symbol, quantity := quantStr l.quantity }
  | _, _ => none

/-- The value of the 'price' key in the wire order json: either the
two-decimal formatted string, or the Python int `0` when `self.price` is
falsy. -/
inductive PriceJson where
  | str (s : String)
  | intZero
deriving DecidableEq, Repr

/-- Round a rational to the nearest integer, ties to even — the rounding of
Python string formatting on `Decimal`. -/
def roundHalfEven (q : Rat) : Int :=
  let f : Int := ⌊q⌋
  let r : Rat := q - f
  if r < 1/2 then f
  else if 1/2 < r then f + 1
  else if f % 2 = 0 then f else f + 1

/-- Model of the format spec used at order.py line 213 applied to a Decimal:
fixed-point with two fractional digits. -/
def format2dp (q : Rat) : String :=
  let n := roundHalfEven (q * 100)
  let sign := if n < 0 then "-" else ""
  let m := n.natAbs
  let c := m % 100
  sign ++ toString (m / 100) ++ "." ++ (if c < 10 then "0" else "") ++ toString c

/-- `strftime` date formatting, kept abstract (claims never inspect it). -/
def DateTime.dateStr : DateTime → String
  | .ofIso s => s.take 10
  | .ofMillis n => toString n

/-- Wire order json built by `Order.to_order_json` (order.py lines 206-225).
`gtc_date` is present iff time-in-force is GTD; `stop_trigger` is present
iff the type is a stop type (its value may itself be null). -/
structure OrderJson where
  order_type : String
  source : String
  time_in_force : String
  legs : List LegJson
  price : PriceJson
  price_effect : String
  gtc_date : Option String
  stop_trigger : Option (Option Rat)
deriving DecidableEq, Repr

/-- `Order.to_order_json` (order.py lines 206-225).  The dict literal
evaluates its values in key order, so the first `AttributeError`
(`self.type.value`, `self.time_in_force.value`, a leg's missing field, or
`self.price_effect.value`) aborts serialization; `none` models the raised
exception.  A GTD order with no `gtc_date` raises at `strftime`. -/
def Order.to_order_json (o : Order) : Option OrderJson :=
  match o.type with
  | none => none
  | some ty =>
    match o.time_in_force with
    | none => none
    | some tif =>
      match o.legs.mapM Leg.to_order_json with
      | none => none
      | some legsJ =>
        match o.price_effect with
        | none => none
        | some pe =>
          let base : OrderJson :=
            { order_type := ty.wire, source := o.source, time_in_force := tif.wire,
              legs := legsJ,
              price := if optRatTruthy o.price
                       then PriceJson.str (format2dp (o.price.getD 0))
                       else PriceJson.intZero,
              price_effect := pe.wire, gtc_date := none, stop_trigger := none }
          let withGtc : Option OrderJson :=
            if tif = TimeInForce.GTD then
              match o.gtc_date with
              | none => none
              | some d => some { base with gtc_date := some d.dateStr }
            else some base
          match withGtc with
          | none => none
          | some oj =>
            if ty = OrderType.STOP_LIMIT ∨ ty = OrderType.STOP_MARKET
            then some { oj with stop_trigger := some o.stop_trigger }
            else some oj

/-- Raw leg record from the API (the dict consumed by
`Leg.parse_from_order`, order.py lines 83-95): each `leg.get(k)` read is a
field, `none` for a missing key. -/
structure LegData where
  symbol : Option String
  instrument_type : Option String
  quantity : Option Rat
  action : Option String
  fills : Option (List String)
  remaining_quantity : Option Int
deriving DecidableEq, Repr

/-- Raw order record: the dict keys read by `Order.parse_from_api`
(order.py lines 170-192). -/
structure OrderData where
  id : Option Int
  account_number : Option String
  time_in_force : Option String
  order_type : Option String
  size : Option Rat
  underlying_symbol : Option String
  underlying_instrument_type : Option String
  price : Option Rat
  price_effect : Option String
  status : Option String
  contingent_status : Option String
  cancellable : Option Bool
  cancelled_at : Option String
  editable : Option Bool
  edited : Option Bool
  received_at : Option String
  updated_at : Option Int
  terminal_at : Option String
  legs : Option (List LegData)
deriving DecidableEq, Repr

/-- The dict handed to `Order.parse_from_api`: it may carry a nested
'order' sub-record (routed/dry-run envelope) plus the envelope extras, or
be a bare order record itself (`bare` is the same dict read through the
order-record keys when no nested 'order' is present). -/
structure ApiData where
  order : Option OrderData
  bare : OrderData
  buying_power_effect : Option BpDict
  fee_calculation : Option FeeDict
  warnings : Option (List OrderWarning)
  errors : Option (List OrderError)
deriving DecidableEq, Repr

/-- `Leg.parse_from_order` (order.py lines 83-95).  `InstrumentType(...)`
and `OrderAction(...)` raise on `None` or an unknown wire value (`none`);
`symbol`, `quantity`, `fills`, `remaining-quantity` are stored raw. -/
def Leg.parse_from_order (l : LegData) : Option Leg :=
  match l.instrument_type.bind InstrumentType.ofWire,
        l.action.bind OrderAction.ofWire with
  | some it, some act =>
      some { symbol := l.symbol, instrument_type := some it,
             quantity := l.quantity, action := some act,
             fills := l.fills, remaining_quantity := l.remaining_quantity }
  | _, _ => none

/-- Python `S(s) if s else None` for a truthiness-guarded enum field such as
'price-effect': absent or empty is `some none`; a present non-empty value
must parse or the whole `parse_from_api` raises (`none`). -/
def parseGuardedEnum {α : Type} (p : String → Option α) :
    Option String → Option (Option α)
  | none => some none
  | some s => if s = "" then some none else (p s).map some

/-- `datetime.fromisoformat(s) if s else None` (validity of the accepted
string is abstracted into `DateTime.ofIso`). -/
def parseIso : Option String → Option DateTime
  | none => none
  | some s => if s = "" then none else some (DateTime.ofIso s)

/-- The shared `new_data` construction of `Order.parse_from_api`
(order.py lines 170-192), identical for both input shapes. -/
def parseCore (order : OrderData) : Option Order :=
  match order.time_in_force.bind TimeInForce.ofWire,
        order.order_type.bind OrderType.ofWire,
        order.underlying_instrument_type.bind InstrumentType.ofWire,
        order.status.bind OrderStatus.ofWire,
        parseGuardedEnum OrderPriceEffect.ofWire order.price_effect,
        order.legs.bind (fun ls => ls.mapM Leg.parse_from_order) with
  | some tif, some ty, some uty, some st, some pe, some legs =>
      some {
        id := if optIntTruthy order.id then order.id else none,
        account_number := order.account_number,
        time_in_force := some tif,
        type := some ty,
        size := order.size,
        underlying_symbol := order.underlying_symbol,
        underlying_type := some uty,
        price := order.price,
        price_effect := pe,
        status := some st,
        contingent_status :=
          if optStrTruthy order.contingent_status then order.contingent_status
          else none,
        cancellable := order.cancellable,
        cancelled_at := parseIso order.cancelled_at,
        editable := order.editable,
        edited := order.edited,
        received_at := parseIso order.received_at,
        updated_at :=
          match order.updated_at with
          | some ms => if ms ≠ 0 then some (DateTime.ofMillis ms) else none
          | none => none,
        terminal_at := parseIso order.terminal_at,
        legs := legs,
        source := "WBT",
        stop_trigger := none,
        gtc_date := none,
        bp := none, fees := none, warnings := none, errors := none,
        is_dry_run := none }
  | _, _, _, _, _, _ => none

/-- `Order.parse_from_api` (order.py lines 158-204).  Presence of a nested
'order' record selects the routed/dry-run shape (`data.get('order')`
truthiness is modelled by presence) and additionally populates the
envelope-level buying-power/fee/warning/error fields; otherwise the dict is
parsed as a bare order record. -/
def Order.parse_from_api (data : ApiData) : Option Order :=
  match data.order with
  | some order =>
      (parseCore order).map (fun base =>
        { base with
          bp := data.buying_power_effect,
          fees := data.fee_calculation,
          warnings := match data.warnings with
            | some ws => some ws
            | none => base.warnings,
          errors := match data.errors with
            | some es => some es
            | none => base.errors })
  | none => parseCore data.bare

/-- A remote endpoint invocation performed through the missing
`tw_api` collaborator. -/
inductive ApiCall where
  | routeOrder
  | getOrdersLive
  | cancelOrder
deriving DecidableEq, Repr

/-- Deterministic environment standing for the `tw_api` collaborator: each
field is the already-extracted `content.data` payload of the corresponding
endpoint (`get_deep_value(response, ['content', 'data'])`), `liveItems` the
extracted `content.data.items` list of `get_orders_live`, and `now` the
value of `datetime.now`. -/
structure ApiEnv where
  routeResponse : ApiData
  liveItems : List ApiData
  cancelResponse : ApiData
  now : DateTime

/-- Python truthiness of `self.id` (`if not self.id`): `None` and `0` are
falsy. -/
def Order.idTruthy (o : Order) : Bool :=
  optIntTruthy o.id

/-- Result of a lifecycle method: the returned value (`none` is an uncaught
exception), the order state after the call (mutation in place), and the
trace of remote invocations. -/
abbrev LifecycleResult := Option Bool × Order × List ApiCall

/-- `Order.live_sync` (order.py lines 345-372): guard on a truthy id, fetch
the live listing, filter entries whose 'id' equals `self.id`, and on a
unique match parse it, merge it, and clear 'contingent-status' once the
merged status is LIVE. -/
def Order.live_sync (env : ApiEnv) (o : Order) : LifecycleResult :=
  if o.idTruthy = false then (some false, o, [])
  else
    let ms := env.liveItems.filter (fun it => decide (it.bare.id = o.id))
    match ms with
    | [] => (some false, o, [ApiCall.getOrdersLive])
    | [m] =>
        match Order.parse_from_api m with
        | none => (none, o, [ApiCall.getOrdersLive])
        | some parsed =>
            let o1 := o.update_fields parsed
            let o2 := if o1.status = some OrderStatus.LIVE
                      then { o1 with contingent_status := some "" } else o1
            (some true, o2, [ApiCall.getOrdersLive])
    | _ => (some false, o, [ApiCall.getOrdersLive])

/-- `Order.route` (order.py lines 260-288): executability gate (no remote
call on failure), serialization (an exception there precedes any remote
call), submission, parse and merge of the response with the dry-run flag
set (and `received_at` stamped for a dry-run), then unconditionally
`asyncio.sleep(0.5)` followed by one `live_sync` pass. -/
def Order.route (env : ApiEnv) (o : Order) (is_dry_run : Bool) : LifecycleResult :=
  if o.is_executable = false then (some false, o, [])
  else
    match o.to_order_json with
    | none => (none, o, [])
    | some _ =>
      match Order.parse_from_api env.routeResponse with
      | none => (none, o, [ApiCall.routeOrder])
      | some received =>
        let received := { received with is_dry_run := some is_dry_run }
        let received := if is_dry_run
                        then { received with received_at := some env.now }
                        else received
        let o1 := o.update_fields received
        let ls := o1.live_sync env
        ((match ls.1 with
          | none => none        -- an exception inside live_sync propagates
          | some _ => some true),
         ls.2.1, ApiCall.routeOrder :: ls.2.2)

/-- `Order.cancel` (order.py lines 307-333): id gate, preliminary
`live_sync`, `cancellable` truthiness gate, remote cancel, merge of the
response, one delayed `live_sync` pass, and finally
`self.status == OrderStatus.CANCELLED`. -/
def Order.cancel (env : ApiEnv) (o : Order) : LifecycleResult :=
  if o.idTruthy = false then (some false, o, [])
  else
    match o.live_sync env with
    | (none, o1, c1) => (none, o1, c1)
    | (some false, o1, c1) => (some false, o1, c1)
    | (some true, o1, c1) =>
      if optBoolTruthy o1.cancellable = false then (some false, o1, c1)
      else
        match Order.parse_from_api env.cancelResponse with
        | none => (none, o1, c1 ++ [ApiCall.cancelOrder])
        | some received =>
          let o2 := o1.update_fields received
          let ls := o2.live_sync env
          ((match ls.1 with
            | none => none      -- an exception inside live_sync propagates
            | some _ => some (decide (ls.2.1.status = some OrderStatus.CANCELLED))),
           ls.2.1, c1 ++ [ApiCall.cancelOrder] ++ ls.2.2)

/-- One attempt's worth of remote behavior for `TastyAPISession.start`
(session.py): the status code of `session_start` and, when it succeeds, the
token it returns and the status code of the follow-up `session_validate`. -/
structure SessResp where
  code : Int
  token : Option String
  validate_code : Int

/-- The mutable state of the `TastyAPISession.start` loop
(tastyworks_api/session.py lines 20-56), instrumented with the number of
`session_start` calls made and of 5-second sleeps performed. -/
structure StartState where
  tries : Nat
  logged_in : Bool
  session_token : Option String
  validated : Option Bool
  calls : Nat
  sleeps : Nat
deriving DecidableEq, Repr

/-- State before the first loop iteration: `tries = 1`, a fresh
`TastyAPISession` dataclass (`validated = None`). -/
def startInit : StartState :=
  { tries := 1, logged_in := false, session_token := none,
    validated := none, calls := 0, sleeps := 0 }

/-- The `while` guard of `TastyAPISession.start` (session.py line 32):
`not session.validated or tries == max_retries` with `max_retries = 3`. -/
def startLoopCond (s : StartState) : Bool :=
  !(optBoolTruthy s.validated) || (s.tries == 3)

/-- One pass of the `while` body of `TastyAPISession.start` (session.py
lines 32-50): increment `tries`, call `session_start` (counted); a non-201
status continues without sleeping; otherwise record the token and run
`_validate_session` (session.py lines 61-76), sleeping 5 seconds when
validation fails. -/
def startBody (env : Nat → SessResp) (s : StartState) : StartState :=
  let s1 := { s with tries := s.tries + 1, calls := s.calls + 1 }
  let r := env s.calls
  if r.code ≠ 201 then s1
  else
    let s2 := { s1 with logged_in := true, session_token := r.token }
    if r.validate_code = 201 then { s2 with validated := some true }
    else
      let s3 := { s2 with logged_in := false, session_token := none,
                          validated := some false }
      { s3 with sleeps := s3.sleeps + 1 }

/-- An environment in which authentication persistently fails: every
`session_start` call returns a non-201 status. -/
def envAllFail : Nat → SessResp :=
  fun _ => { code := 400, token := none, validate_code := 400 }

/-- A fully populated equity leg (the spec scenario leg: buy-to-open SPY,
quantity 1). -/
def leg0 : Leg :=
  { instrument_type := some InstrumentType.EQUITY, symbol := some "SPY",
    action := some OrderAction.BTO, quantity := some 1,
    fills := none, remaining_quantity := none }

/-- A routed limit order with remote id 123 and `price = 100`, used as the
concrete `self` in witnesses. -/
def sampleSelf : Order :=
  { account_number := some "ACC1", type := some OrderType.LIMIT,
    time_in_force := some TimeInForce.DAY, legs := [leg0], source := "WBT",
    id := some 123, price := some 100,
    price_effect := some OrderPriceEffect.DEBIT, stop_trigger := none,
    status := some OrderStatus.RECEIVED, contingent_status := none,
    size := some 1, gtc_date := none, underlying_symbol := some "SPY",
    underlying_type := some InstrumentType.EQUITY, cancellable := some true,
    editable := some true, edited := some false, cancelled_at := none,
    received_at := none, updated_at := none, terminal_at := none,
    bp := none, fees := none, warnings := none, errors := none,
    is_dry_run := none }

/-- Raw wire leg matching `leg0`. -/
def legData0 : LegData :=
  { symbol := some "SPY", instrument_type := some "Equity",
    quantity := some 1, action := some "Buy to Open",
    fills := none, remaining_quantity := none }

/-- Raw wire order record for a live order with id 123. -/
def recLive : OrderData :=
  { id := some 123, account_number := some "ACC1",
    time_in_force := some "Day", order_type := some "Limit",
    size := some 1, underlying_symbol := some "SPY",
    underlying_instrument_type := some "Equity", price := some 100,
    price_effect := some "Debit", status := some "Live",
    contingent_status := none, cancellable := some true,
    cancelled_at := none, editable := some true, edited := some false,
    received_at := some "2021-01-01T00:00:00",
    updated_at := some 1600000000000, terminal_at := none,
    legs := some [legData0] }

/-- An order record with every key absent. -/
def emptyRec : OrderData :=
  { id := none, account_number := none, time_in_force := none,
    order_type := none, size := none, underlying_symbol := none,
    underlying_instrument_type := none, price := none, price_effect := none,
    status := none, contingent_status := none, cancellable := none,
    cancelled_at := none, editable := none, edited := none,
    received_at := none, updated_at := none, terminal_at := none,
    legs := none }

/-- `recLive` delivered in the bare shape. -/
def apiBareLive : ApiData :=
  { order := none, bare := recLive, buying_power_effect := none,
    fee_calculation := none, warnings := none, errors := none }

/-- `recLive` delivered in the wrapped routed shape with no envelope extras. -/
def apiRouted : ApiData :=
  { order := some recLive, bare := emptyRec, buying_power_effect := none,
    fee_calculation := none, warnings := none, errors := none }

/-- The Order that `recLive` parses to. -/
def orderLive : Order :=
  { account_number := some "ACC1", type := some OrderType.LIMIT,
    time_in_force := some TimeInForce.DAY, legs := [leg0], source := "WBT",
    id := some 123, price := some 100,
    price_effect := some OrderPriceEffect.DEBIT, stop_trigger := none,
    status := some OrderStatus.LIVE, contingent_status := none,
    size := some 1, gtc_date := none, underlying_symbol := some "SPY",
    underlying_type := some InstrumentType.EQUITY, cancellable := some true,
    editable := some true, edited := some false, cancelled_at := none,
    received_at := some (DateTime.ofIso "2021-01-01T00:00:00"),
    updated_at := some (DateTime.ofMillis 1600000000000), terminal_at := none,
    bp := none, fees := none, warnings := none, errors := none,
    is_dry_run := none }

/-- Environment whose live-orders listing contains exactly one entry with
id 123 and status Live. -/
def envOneLive : ApiEnv :=
  { routeResponse := apiRouted, liveItems := [apiBareLive],
    cancelResponse := apiBareLive, now := DateTime.ofIso "2021-01-02T00:00:00" }

/-- Environment whose live-orders listing is empty. -/
def envNoMatch : ApiEnv :=
  { routeResponse := apiRouted, liveItems := [],
    cancelResponse := apiBareLive, now := DateTime.ofIso "2021-01-02T00:00:00" }

/-- A syntactically complete order with no legs (not executable). -/
def oNoLegs : Order := { sampleSelf with legs := [] }

/-- An order with no remote id. -/
def oNoId : Order := { sampleSelf with id := none }

/-- An executable market order with no price and no price-effect. -/
def oMkt : Order :=
  { sampleSelf with type := some OrderType.MARKET, price := none,
                    price_effect := none }

/-- A leg whose fields are all set but whose quantity is negative. -/
def legNeg : Leg := { leg0 with quantity := some (-1) }

/-- The merge step keeps the newer value exactly when it is non-null and
differs from the current one (the source writes the conjunction in the
other order). -/
theorem mergeField_spec {α : Type} [DecidableEq α] (cur new : Option α) :
    mergeField cur new = if new ≠ none ∧ new ≠ cur then new else cur := by
  by_cases h1 : new = none <;> by_cases h2 : new = cur <;>
    simp [mergeField, h1, h2]

/-- All post-guard branches of `live_sync` perform exactly one
`get_orders_live` call; the id guard performs none. -/
theorem live_sync_calls (env : ApiEnv) (a : Order) :
    (a.live_sync env).2.2 =
      if a.idTruthy then [ApiCall.getOrdersLive] else [] := by
  unfold Order.live_sync
  cases h : a.idTruthy with
  | false => simp [h]
  | true =>
    simp only [h, Bool.true_eq_false, if_false, ite_true, if_neg, not_false_eq_true,
      Bool.false_eq_true]
    split
    · rfl
    · split <;> rfl
    · rfl

/-- `update_fields` merges the id fields pointwise. -/
theorem update_fields_id (s n : Order) :
    (s.update_fields n).id = mergeField s.id n.id := rfl

/-- The trace of `live_sync` never contains a cancel call. -/
theorem cancel_not_in_live_sync_calls (env : ApiEnv) (a : Order) :
    ApiCall.cancelOrder ∉ (a.live_sync env).2.2 := by
  rw [live_sync_calls]
  split <;> simp

/-- C1: for every pair of Order states (self, newer), `update_fields`
overwrites a field of self with the corresponding field of newer iff that
newer value is non-null and differs from self's current value (for the two
fields that are never null in the model — `legs`, `source` — iff it
differs); in particular merging a newer order whose price is null onto a
self with price 100 leaves every field of self, price included, unchanged,
and merging one with price 101.50 sets price to 101.50 and touches nothing
else. -/
theorem claim_C1_update_fields_merge :
    (∀ s n : Order, s.update_fields n = {
      account_number := if n.account_number ≠ none ∧ n.account_number ≠ s.account_number
                        then n.account_number else s.account_number,
      type := if n.type ≠ none ∧ n.type ≠ s.type then n.type else s.type,
      time_in_force := if n.time_in_force ≠ none ∧ n.time_in_force ≠ s.time_in_force
                       then n.time_in_force else s.time_in_force,
      legs := if n.legs ≠ s.legs then n.legs else s.legs,
      source := if n.source ≠ s.source then n.source else s.source,
      id := if n.id ≠ none ∧ n.id ≠ s.id then n.id else s.id,
      price := if n.price ≠ none ∧ n.price ≠ s.price then n.price else s.price,
      price_effect := if n.price_effect ≠ none ∧ n.price_effect ≠ s.price_effect
                      then n.price_effect else s.price_effect,
      stop_trigger := if n.stop_trigger ≠ none ∧ n.stop_trigger ≠ s.stop_trigger
                      then n.stop_trigger else s.stop_trigger,
      status := if n.status ≠ none ∧ n.status ≠ s.status then n.status else s.status,
      contingent_status := if n.contingent_status ≠ none ∧ n.contingent_status ≠ s.contingent_status
                           then n.contingent_status else s.contingent_status,
      size := if n.size ≠ none ∧ n.size ≠ s.size then n.size else s.size,
      gtc_date := if n.gtc_date ≠ none ∧ n.gtc_date ≠ s.gtc_date
                  then n.gtc_date else s.gtc_date,
      underlying_symbol := if n.underlying_symbol ≠ none ∧ n.underlying_symbol ≠ s.underlying_symbol
                           then n.underlying_symbol else s.underlying_symbol,
      underlying_type := if n.underlying_type ≠ none ∧ n.underlying_type ≠ s.underlying_type
                         then n.underlying_type else s.underlying_type,
      cancellable := if n.cancellable ≠ none ∧ n.cancellable ≠ s.cancellable
                     then n.cancellable else s.cancellable,
      editable := if n.editable ≠ none ∧ n.editable ≠ s.editable
                  then n.editable else s.editable,
      edited := if n.edited ≠ none ∧ n.edited ≠ s.edited then n.edited else s.edited,
      cancelled_at := if n.cancelled_at ≠ none ∧ n.cancelled_at ≠ s.cancelled_at
                      then n.cancelled_at else s.cancelled_at,
      received_at := if n.received_at ≠ none ∧ n.received_at ≠ s.received_at
                     then n.received_at else s.received_at,
      updated_at := if n.updated_at ≠ none ∧ n.updated_at ≠ s.updated_at
                    then n.updated_at else s.updated_at,
      terminal_at := if n.terminal_at ≠ none ∧ n.terminal_at ≠ s.terminal_at
                     then n.terminal_at else s.terminal_at,
      bp := if n.bp ≠ none ∧ n.bp ≠ s.bp then n.bp else s.bp,
      fees := if n.fees ≠ none ∧ n.fees ≠ s.fees then n.fees else s.fees,
      warnings := if n.warnings ≠ none ∧ n.warnings ≠ s.warnings
                  then n.warnings else s.warnings,
      errors := if n.errors ≠ none ∧ n.errors ≠ s.errors then n.errors else s.errors,
      is_dry_run := if n.is_dry_run ≠ none ∧ n.is_dry_run ≠ s.is_dry_run
                    then n.is_dry_run else s.is_dry_run }) ∧
    sampleSelf.update_fields { sampleSelf with price := none } = sampleSelf ∧
    sampleSelf.update_fields { sampleSelf with price := some (mkRat 203 2) } =
      { sampleSelf with price := some (mkRat 203 2) } := by
  refine ⟨fun s n => ?_, by decide, by decide⟩
  simp only [Order.update_fields, mergeField_spec, mergeRaw]

/-- C2: whenever `is_executable` does not hold, `route` returns a failed
result before performing any remote call: the trace is empty and the order
state unchanged. -/
theorem claim_C2_route_not_executable :
    ∀ (env : ApiEnv) (o : Order) (d : Bool), o.is_executable = false →
      o.route env d = (some false, o, []) := by
  intro env o d h
  unfold Order.route
  simp [h]

/-- Witness for C2 at a concrete order with no legs. -/
theorem claim_C2_witness :
    Order.is_executable oNoLegs = false ∧
      oNoLegs.route envNoMatch true = (some false, oNoLegs, []) :=
  ⟨by decide, claim_C2_route_not_executable envNoMatch oNoLegs true (by decide)⟩

/-- C3: on an order with a (truthy) remote id, when the live listing holds
zero entries with a matching id, or more than one, `live_sync` returns
false and leaves every field of the order unmodified, performing only the
listing fetch. -/
theorem claim_C3_live_sync_no_unique_match :
    ∀ (env : ApiEnv) (o : Order), o.idTruthy = true →
      ((env.liveItems.filter (fun it => decide (it.bare.id = o.id))).length = 0 ∨
        1 < (env.liveItems.filter (fun it => decide (it.bare.id = o.id))).length) →
      o.live_sync env = (some false, o, [ApiCall.getOrdersLive]) := by
  intro env o hid hlen
  unfold Order.live_sync
  simp only [hid, Bool.true_eq_false, if_false, Bool.false_eq_true]
  cases hms : env.liveItems.filter (fun it => decide (it.bare.id = o.id)) with
  | nil => rfl
  | cons m tail =>
    cases tail with
    | nil =>
      rw [hms] at hlen
      simp at hlen
    | cons m2 rest => rfl

/-- Witness for C3: empty live listing. -/
theorem claim_C3_witness :
    sampleSelf.idTruthy = true ∧
      sampleSelf.live_sync envNoMatch = (some false, sampleSelf, [ApiCall.getOrdersLive]) :=
  ⟨rfl, claim_C3_live_sync_no_unique_match envNoMatch sampleSelf rfl (Or.inl (by decide))⟩

/-- C8 counterexample: a leg whose instrument type, symbol, action are set
and whose quantity is set but negative — hence not positive — is
nonetheless executable, refuting the claim's "positive" requirement. -/
theorem claim_C8_counterexample :
    Leg.is_executable legNeg = true ∧ legNeg.quantity = some (-1) ∧
      ¬ ((0 : Rat) < -1) := by
  refine ⟨by decide, rfl, by norm_num⟩

/-- C8 amended: `Leg.is_executable` is true iff the instrument type is set,
the symbol differs from the empty string, the action is set, and the
quantity is set and nonzero (Python truthiness of a Decimal, not
positivity).  It is a pure function of the leg. -/
theorem claim_C8_leg_executable_amended :
    ∀ l : Leg, l.is_executable = true ↔
      (l.instrument_type ≠ none ∧ l.symbol ≠ some "" ∧ l.action ≠ none ∧
        ∃ q : Rat, l.quantity = some q ∧ q ≠ 0) := by
  intro l
  cases hq : l.quantity with
  | none =>
    simp [Leg.is_executable, optRatTruthy, hq]
  | some q =>
    simp [Leg.is_executable, optRatTruthy, hq, Option.isSome_iff_ne_none,
      bne_iff_ne, and_assoc]

/-- The shared parsing core never populates the envelope-only fields. -/
theorem parseCore_defaults (rec : OrderData) (b : Order)
    (h : parseCore rec = some b) :
    b.bp = none ∧ b.fees = none ∧ b.warnings = none ∧ b.errors = none := by
  unfold parseCore at h
  split at h
  · cases h
    exact ⟨rfl, rfl, rfl, rfl⟩
  · cases h

/-- C9: parsing the bare-order shape and parsing the wrapped routed-order
envelope carrying the same order sub-record (and nothing else) yield
identical Order state, whatever order-record keys the wrapped dict may
additionally expose at top level. -/
theorem claim_C9_parse_shapes_agree :
    ∀ (rec flat : OrderData),
      Order.parse_from_api
        { order := some rec, bare := flat, buying_power_effect := none,
          fee_calculation := none, warnings := none, errors := none } =
      Order.parse_from_api
        { order := none, bare := rec, buying_power_effect := none,
          fee_calculation := none, warnings := none, errors := none } := by
  intro rec flat
  unfold Order.parse_from_api
  cases h : parseCore rec with
  | none => simp [h]
  | some base =>
    obtain ⟨h1, h2, h3, h4⟩ := parseCore_defaults rec base h
    simp only [h, Option.map_some]
    cases base
    simp_all

/-- C4: on an order with a truthy remote id, when the live listing holds
exactly one entry with a matching id and that entry parses to an order
whose status is LIVE, `live_sync` returns true, the merged status is LIVE
and the stale contingent-status field is cleared to the empty string. -/
theorem claim_C4_live_sync_unique_live :
    ∀ (env : ApiEnv) (o : Order) (m : ApiData) (parsed : Order),
      o.idTruthy = true →
      env.liveItems.filter (fun it => decide (it.bare.id = o.id)) = [m] →
      Order.parse_from_api m = some parsed →
      parsed.status = some OrderStatus.LIVE →
      (o.live_sync env).1 = some true ∧
      (o.live_sync env).2.1.status = some OrderStatus.LIVE ∧
      (o.live_sync env).2.1.contingent_status = some "" := by
  intro env o m parsed hid hf hp hs
  have hst : (o.update_fields parsed).status = some OrderStatus.LIVE := by
    show mergeField o.status parsed.status = some OrderStatus.LIVE
    by_cases h : o.status = some OrderStatus.LIVE <;>
      simp [mergeField, hs, h, eq_comm]
  unfold Order.live_sync
  simp [hid, hf, hp, hst]

/-- Witness for C4 at the one-entry live listing `envOneLive`. -/
theorem claim_C4_witness :
    (sampleSelf.live_sync envOneLive).1 = some true ∧
    (sampleSelf.live_sync envOneLive).2.1.status = some OrderStatus.LIVE ∧
    (sampleSelf.live_sync envOneLive).2.1.contingent_status = some "" :=
  claim_C4_live_sync_unique_live envOneLive sampleSelf apiBareLive orderLive
    rfl (by decide) (by decide) rfl

/-- C6 counterexample: a dry-run route of an executable order that already
has a remote id performs the post-route reconciliation — the trace of
`route(session, isDryRun=true)` contains the live-orders fetch, refuting
"only when isDryRun is false". -/
theorem claim_C6_counterexample :
    Order.is_executable sampleSelf = true ∧
      (sampleSelf.route envOneLive true).2.2 =
        [ApiCall.routeOrder, ApiCall.getOrdersLive] := by
  constructor
  · decide
  · decide

/-- C6 amended: `route` attempts the fixed wait and one `live_sync` pass
unconditionally after merging the parsed response, for dry-run and real
routes alike, so the remote calls performed by `route` do not depend on the
dry-run flag at all (for an order that ends up with no truthy remote id the
`live_sync` attempt itself returns false before any remote call — again
regardless of the flag). -/
theorem claim_C6_amended_route_calls_independent_of_dry_run :
    ∀ (env : ApiEnv) (o : Order) (d1 d2 : Bool),
      (o.route env d1).2.2 = (o.route env d2).2.2 := by
  intro env o d1 d2
  unfold Order.route
  by_cases he : o.is_executable = false
  · simp [he]
  · simp only [if_neg he]
    cases hj : o.to_order_json with
    | none => rfl
    | some oj =>
      cases hp : Order.parse_from_api env.routeResponse with
      | none => rfl
      | some received =>
        simp only [live_sync_calls]
        cases d1 <;> cases d2 <;> rfl

/-- C5: `cancel` returns false without invoking the remote cancel endpoint
when the order has no (truthy) remote id, when the preliminary `live_sync`
returns false, or when the reconciled `cancellable` flag is not truthy; the
cancel endpoint is invoked exactly when the id is truthy, `live_sync`
returns true, and the reconciled `cancellable` is truthy; and whenever the
endpoint was invoked and `cancel` returns a value, that value is true iff
the resulting status is cancelled. -/
theorem claim_C5_cancel_gates :
    ∀ (env : ApiEnv) (o : Order),
      (o.idTruthy = false → o.cancel env = (some false, o, [])) ∧
      ((o.live_sync env).1 = some false →
        (o.cancel env).1 = some false ∧
        ApiCall.cancelOrder ∉ (o.cancel env).2.2) ∧
      ((o.live_sync env).1 = some true →
        optBoolTruthy (o.live_sync env).2.1.cancellable = false →
        (o.cancel env).1 = some false ∧
        ApiCall.cancelOrder ∉ (o.cancel env).2.2) ∧
      (ApiCall.cancelOrder ∈ (o.cancel env).2.2 ↔
        (o.idTruthy = true ∧ (o.live_sync env).1 = some true ∧
          optBoolTruthy (o.live_sync env).2.1.cancellable = true)) ∧
      (∀ b : Bool, ApiCall.cancelOrder ∈ (o.cancel env).2.2 →
        (o.cancel env).1 = some b →
        (b = true ↔ (o.cancel env).2.1.status = some OrderStatus.CANCELLED)) := by
  intro env o
  by_cases hid : o.idTruthy = false
  · have hc : o.cancel env = (some false, o, []) := by
      unfold Order.cancel
      simp [hid]
    refine ⟨fun _ => hc, fun _ => ?_, fun _ _ => ?_, ?_, ?_⟩
    · rw [hc]; exact ⟨rfl, by simp⟩
    · rw [hc]; exact ⟨rfl, by simp⟩
    · rw [hc]; simp [hid]
    · intro b hmem
      rw [hc] at hmem
      simp at hmem
  · have hidT : o.idTruthy = true := by
      revert hid; cases o.idTruthy <;> simp
    rcases hls : o.live_sync env with ⟨r1, o1, c1⟩
    have hcnl : ApiCall.cancelOrder ∉ c1 := by
      have h := cancel_not_in_live_sync_calls env o
      rw [hls] at h
      exact h
    match r1, hls with
    | none, hls =>
      have hc : o.cancel env = (none, o1, c1) := by
        unfold Order.cancel
        simp [hidT, hls]
      refine ⟨?_, ?_, ?_, ?_, ?_⟩
      · intro h; rw [hidT] at h; cases h
      · intro h; simp at h
      · intro h; simp at h
      · rw [hc]
        simp [hcnl]
      · intro b hmem hres
        rw [hc] at hres
        cases hres
    | some false, hls =>
      have hc : o.cancel env = (some false, o1, c1) := by
        unfold Order.cancel
        simp [hidT, hls]
      refine ⟨?_, ?_, ?_, ?_, ?_⟩
      · intro h; rw [hidT] at h; cases h
      · intro _; rw [hc]; exact ⟨rfl, hcnl⟩
      · intro h; simp at h
      · rw [hc]
        simp [hcnl]
      · intro b hmem hres
        rw [hc] at hmem
        exact absurd hmem hcnl
    | some true, hls =>
      by_cases hcb : optBoolTruthy o1.cancellable = false
      · have hc : o.cancel env = (some false, o1, c1) := by
          unfold Order.cancel
          simp [hidT, hls, hcb]
        refine ⟨?_, ?_, ?_, ?_, ?_⟩
        · intro h; rw [hidT] at h; cases h
        · intro h; simp at h
        · intro _ _; rw [hc]; exact ⟨rfl, hcnl⟩
        · rw [hc]
          simp [hcnl, hcb]
        · intro b hmem hres
          rw [hc] at hmem
          exact absurd hmem hcnl
      · have hcbT : optBoolTruthy o1.cancellable = true := by
          revert hcb; cases optBoolTruthy o1.cancellable <;> simp
        cases hpc : Order.parse_from_api env.cancelResponse with
        | none =>
          have hc : o.cancel env = (none, o1, c1 ++ [ApiCall.cancelOrder]) := by
            unfold Order.cancel
            simp [hidT, hls, hcbT, hpc]
          refine ⟨?_, ?_, ?_, ?_, ?_⟩
          · intro h; rw [hidT] at h; cases h
          · intro h; simp at h
          · intro _ h; simp only at h; rw [h] at hcbT; cases hcbT
          · rw [hc]
            simp [hidT, hcbT]
          · intro b hmem hres
            rw [hc] at hres
            cases hres
        | some received =>
          rcases hls2 : (o1.update_fields received).live_sync env with ⟨r2, o3, c2⟩
          match r2, hls2 with
          | none, hls2 =>
            have hc : o.cancel env = (none, o3, c1 ++ [ApiCall.cancelOrder] ++ c2) := by
              unfold Order.cancel
              simp [hidT, hls, hcbT, hpc, hls2]
            refine ⟨?_, ?_, ?_, ?_, ?_⟩
            · intro h; rw [hidT] at h; cases h
            · intro h; simp at h
            · intro _ h; simp only at h; rw [h] at hcbT; cases hcbT
            · rw [hc]
              simp [hidT, hcbT]
            · intro b hmem hres
              rw [hc] at hres
              cases hres
          | some r2v, hls2 =>
            have hc : o.cancel env =
                (some (decide (o3.status = some OrderStatus.CANCELLED)), o3,
                 c1 ++ [ApiCall.cancelOrder] ++ c2) := by
              unfold Order.cancel
              simp [hidT, hls, hcbT, hpc, hls2]
            refine ⟨?_, ?_, ?_, ?_, ?_⟩
            · intro h; rw [hidT] at h; cases h
            · intro h; simp at h
            · intro _ h; simp only at h; rw [h] at hcbT; cases hcbT
            · rw [hc]
              simp [hidT, hcbT]
            · intro b hmem hres
              rw [hc] at hres ⊢
              simp only [Option.some_inj] at hres
              subst hres
              simp

/-- Witness for C5 at an order with no remote id. -/
theorem claim_C5_witness :
    oNoId.idTruthy = false ∧ oNoId.cancel envNoMatch = (some false, oNoId, []) :=
  ⟨rfl, (claim_C5_cancel_gates envNoMatch oNoId).1 rfl⟩

/-- C7: under persistently failing authentication (every `session_start`
returns a non-201 status), the retry loop of `TastyAPISession.start` never
exits: after any number k of iterations the guard
`not session.validated or tries == max_retries` is still true, one more
`session_start` call is made per iteration without bound, and no backoff
sleep ever happens — so `start` does not stop after 3 attempts and the
give-up branch that would raise is unreachable. -/
theorem claim_C7_session_start_retries_unbounded :
    ∀ k : Nat,
      (startBody envAllFail)^[k] startInit =
        { tries := k + 1, logged_in := false, session_token := none,
          validated := none, calls := k, sleeps := 0 } ∧
      startLoopCond ((startBody envAllFail)^[k] startInit) = true := by
  have h : ∀ m : Nat, (startBody envAllFail)^[m] startInit =
      { tries := m + 1, logged_in := false, session_token := none,
        validated := none, calls := m, sleeps := 0 } := by
    intro m
    induction m with
    | zero => rfl
    | succ n ih =>
      rw [Function.iterate_succ_apply', ih]
      rfl
  intro k
  exact ⟨h k, by rw [h k]; rfl⟩

/-- C10: every market order with no price-effect set fails to serialize
(`to_order_json` dereferences the absent price-effect), and when such an
order is executable — which `is_executable` accepts, since it never
effectively checks price or price-effect — `route` raises instead of
returning a result, before any remote call. -/
theorem claim_C10_market_order_serialization_raises :
    (∀ o : Order, o.type = some OrderType.MARKET → o.price_effect = none →
      o.to_order_json = none ∧
      (o.is_executable = true → ∀ (env : ApiEnv) (d : Bool),
        o.route env d = (none, o, []))) ∧
    Order.is_executable oMkt = true ∧ Order.to_order_json oMkt = none := by
  refine ⟨fun o hty hpe => ?_, by decide, by decide⟩
  have hj : o.to_order_json = none := by
    unfold Order.to_order_json
    cases htif : o.time_in_force with
    | none => simp [hty, htif]
    | some tif =>
      cases hlj : o.legs.mapM Leg.to_order_json with
      | none => simp [hty, htif, hlj]
      | some lj => simp [hty, htif, hlj, hpe]
  refine ⟨hj, fun hex env d => ?_⟩
  unfold Order.route
  simp [hex, hj]

/-- Witness for C10 at a concrete executable market order. -/
theorem claim_C10_witness :
    oMkt.type = some OrderType.MARKET ∧ oMkt.price_effect = none ∧
      oMkt.is_executable = true ∧
      oMkt.route envNoMatch true = (none, oMkt, []) :=
  ⟨rfl, rfl, by decide,
    (claim_C10_market_order_serialization_raises.1 oMkt rfl rfl).2 (by decide)
      envNoMatch true⟩

end Tasty
